import Mathlib

/-!
# Verification of the intro.js overlay placement engine and step controller

Shallow embedding of the adaptive placement engine (geometry resolution,
side/alignment decision, coordinate assignment) and of the tour step
controller, together with theorems settling the specification claims.

Pixel coordinates are modelled as rationals (the source works with
JavaScript numbers and divides widths by two).
-/

namespace IntroJs

/-- Viewport dimensions, `{width, height}` (`getWindowSize`). -/
structure WindowSize where
  width : ℚ
  height : ℚ
deriving DecidableEq

/-- The `Offset` record returned by `getOffset`
(`src/util/getOffset.ts`). -/
structure Offset where
  width : ℚ
  height : ℚ
  left : ℚ
  right : ℚ
  top : ℚ
  bottom : ℚ
  absoluteTop : ℚ
  absoluteLeft : ℚ
  absoluteRight : ℚ
  absoluteBottom : ℚ
deriving DecidableEq

/-- The `TooltipPosition` string union of
`src/packages/tooltip/tooltipPosition.ts`. -/
inductive TooltipPosition where
  | floating
  | top
  | bottom
  | left
  | right
  | topRightAligned
  | topLeftAligned
  | topMiddleAligned
  | bottomRightAligned
  | bottomLeftAligned
  | bottomMiddleAligned
deriving DecidableEq, Inhabited

/-- `removeEntry(array, entry)` (`src/util/removeEntry.ts`): removes the
first occurrence of `entry` from the array, in place. -/
def removeEntry (xs : List TooltipPosition) (x : TooltipPosition) :
    List TooltipPosition :=
  xs.erase x

/-- The removal cascade of `determineAutoAlignment`
(`src/packages/tooltip/tooltipPosition.ts` lines 37-57): middle-aligned
candidates that do not fit on either side and right-aligned candidates
that overflow the window are removed, and the first remaining candidate
is returned (`none` for an empty list, the JS `null`). -/
def alignmentFallback (halfTooltipWidth winWidth margin offsetLeft
    tooltipWidth : ℚ) (desiredAlignment : List TooltipPosition) :
    Option TooltipPosition :=
  let d1 :=
    if winWidth - (offsetLeft + halfTooltipWidth) < margin then
      removeEntry (removeEntry desiredAlignment .topMiddleAligned)
        .bottomMiddleAligned
    else desiredAlignment
  let d2 :=
    if offsetLeft + halfTooltipWidth < margin then
      removeEntry (removeEntry d1 .topMiddleAligned) .bottomMiddleAligned
    else d1
  let d3 :=
    if offsetLeft + tooltipWidth - margin > winWidth then
      removeEntry (removeEntry d2 .topRightAligned) .bottomRightAligned
    else d2
  match d3 with
  | [] => none
  | a :: _ => some a

/-- `determineAutoAlignment` of `src/packages/tooltip/tooltipPosition.ts`.
The read of the ambient `window.screen.width` is made an explicit first
argument `screenWidth`; everything else is translated directly: an
explicitly requested alignment present in the candidate list is returned
at once, otherwise the removal cascade of `alignmentFallback` runs. -/
def determineAutoAlignment (screenWidth : ℚ)
    (offsetLeft tooltipWidth windowWidth : ℚ)
    (desiredAlignment : List TooltipPosition)
    (requestedAlignment : Option TooltipPosition) :
    Option TooltipPosition :=
  let halfTooltipWidth := tooltipWidth / 2
  let winWidth := min windowWidth screenWidth
  let margin : ℚ := 10
  match requestedAlignment with
  | some r =>
    if r ∈ desiredAlignment then some r
    else
      alignmentFallback halfTooltipWidth winWidth margin offsetLeft
        tooltipWidth desiredAlignment
  | none =>
      alignmentFallback halfTooltipWidth winWidth margin offsetLeft
        tooltipWidth desiredAlignment

/-- `desiredTooltipPosition.split("-")[0]`: the base side named by a
(possibly aligned) tooltip position. -/
def baseOf : TooltipPosition → TooltipPosition
  | .topRightAligned | .topLeftAligned | .topMiddleAligned => .top
  | .bottomRightAligned | .bottomLeftAligned | .bottomMiddleAligned => .bottom
  | p => p

/-- The candidate filtering of `determineAutoPosition`
(`src/packages/tooltip/tooltipPosition.ts` lines 75-90): positions whose
side does not fit the viewport, judged on the document-relative
`absolute*` edges padded by 10px, are removed from the precedence list. -/
def survivingPositions (positionPrecedence : List TooltipPosition)
    (targetOffset : Offset) (tooltipWidth tooltipHeight : ℚ)
    (windowSize : WindowSize) : List TooltipPosition :=
  let tooltipWidthAdjusted := tooltipWidth + 10
  let tooltipHeightAdjusted := tooltipHeight + 10
  let p1 :=
    if targetOffset.absoluteBottom + tooltipHeightAdjusted >
        windowSize.height then
      removeEntry positionPrecedence .bottom
    else positionPrecedence
  let p2 :=
    if targetOffset.absoluteTop - tooltipHeightAdjusted < 0 then
      removeEntry p1 .top
    else p1
  let p3 :=
    if targetOffset.absoluteRight + tooltipWidthAdjusted >
        windowSize.width then
      removeEntry p2 .right
    else p2
  let p4 :=
    if targetOffset.absoluteLeft - tooltipWidthAdjusted < 0 then
      removeEntry p3 .left
    else p3
  p4

/-- `determineAutoPosition` of `src/packages/tooltip/tooltipPosition.ts`
(with the ambient `window.screen.width`, read inside
`determineAutoAlignment`, as explicit first argument): filter the
precedence list against the viewport, pick the requested base side if it
survived and otherwise the first survivor (`floating` when none), then
resolve a horizontal alignment for a top/bottom base. -/
def determineAutoPosition (screenWidth : ℚ)
    (positionPrecedence : List TooltipPosition) (targetOffset : Offset)
    (tooltipWidth tooltipHeight : ℚ)
    (desiredTooltipPosition : TooltipPosition)
    (windowSize : WindowSize) : TooltipPosition :=
  let tooltipWidthAdjusted := tooltipWidth + 10
  let possiblePositions :=
    survivingPositions positionPrecedence targetOffset tooltipWidth
      tooltipHeight windowSize
  let requestedBasePos := baseOf desiredTooltipPosition
  let calculatedPosition : TooltipPosition :=
    match possiblePositions with
    | [] => .floating
    | a :: _ =>
      if requestedBasePos ∈ possiblePositions then requestedBasePos else a
  if calculatedPosition = .top then
    (determineAutoAlignment screenWidth targetOffset.absoluteLeft
        tooltipWidthAdjusted windowSize.width
        [.topLeftAligned, .topMiddleAligned, .topRightAligned]
        (some desiredTooltipPosition)).getD .topMiddleAligned
  else if calculatedPosition = .bottom then
    (determineAutoAlignment screenWidth targetOffset.absoluteLeft
        tooltipWidthAdjusted windowSize.width
        [.bottomLeftAligned, .bottomMiddleAligned, .bottomRightAligned]
        (some desiredTooltipPosition)).getD .bottomMiddleAligned
  else calculatedPosition

/-! ## Coordinate assignment (`src/packages/tooltip/tooltip.ts`) -/

/-- A CSS length value held by one of the six tooltip style cells:
`auto`, a pixel length, the string `"0"`, or a percentage. -/
inductive CssVal where
  | auto
  | px (v : ℚ)
  | zero
  | percent (v : ℚ)
deriving DecidableEq

/-- The six style cells written by `alignTooltip` (the `State<string>`
cells `tooltipTop`, `tooltipBottom`, `tooltipLeft`, `tooltipRight`,
`tooltipMarginLeft`, `tooltipMarginTop`). -/
structure TooltipStyle where
  top : CssVal
  bottom : CssVal
  left : CssVal
  right : CssVal
  marginLeft : CssVal
  marginTop : CssVal
deriving DecidableEq

/-- The anchor rectangle passed to `alignTooltip` and `checkRight`
(`{width, height, left, top}` of the target's `getOffset`). -/
structure TargetRect where
  width : ℚ
  height : ℚ
  left : ℚ
  top : ℚ
deriving DecidableEq

/-- `checkRight` of `src/packages/tooltip/tooltip.ts`: clamp the
proposed left offset so the tooltip does not run off the right side of
the window; returns the written `tooltipLeft` value and the boolean
result. -/
def checkRight (targetOffset : TargetRect) (windowSize : WindowSize)
    (tooltipLayerStyleLeft tooltipWidth : ℚ) : CssVal × Bool :=
  if targetOffset.left + tooltipLayerStyleLeft + tooltipWidth >
      windowSize.width then
    (.px (windowSize.width - tooltipWidth - targetOffset.left), false)
  else
    (.px tooltipLayerStyleLeft, true)

/-- `alignTooltip` of `src/packages/tooltip/tooltip.ts`: reset the six
style cells, then write the edge offsets for the given position. The
state cells are modelled as a `TooltipStyle` record threaded through the
call; `tooltipBottomOverflow` is the derived boolean read (never
written) by the function. -/
def alignTooltip (position : TooltipPosition) (targetOffset : TargetRect)
    (windowSize : WindowSize) (tooltipWidth tooltipHeight : ℚ)
    (tooltipBottomOverflow showStepNumbers hintMode : Bool)
    (s0 : TooltipStyle) : TooltipStyle :=
  let s : TooltipStyle :=
    { s0 with
      top := .auto, bottom := .auto, left := .auto, right := .auto,
      marginLeft := .zero, marginTop := .zero }
  match position with
  | .topRightAligned =>
    let tooltipLayerStyleRight : ℚ := 0
    let s :=
      if targetOffset.left + targetOffset.width - tooltipWidth < 0 then
        { s with left := .px 0 }
      else
        { s with right := .px tooltipLayerStyleRight }
    { s with bottom := .px (targetOffset.height + 20) }
  | .topMiddleAligned =>
    let tooltipLayerStyleLeftRight :=
      targetOffset.width / 2 - tooltipWidth / 2
    let tooltipLayerStyleLeftRight :=
      if hintMode then tooltipLayerStyleLeftRight + 5
      else tooltipLayerStyleLeftRight
    let topMiddleOverflowLeft :=
      targetOffset.left + tooltipLayerStyleLeftRight < 0
    let topMiddleOverflowRight :=
      targetOffset.left + tooltipLayerStyleLeftRight + tooltipWidth >
        windowSize.width
    let s :=
      if topMiddleOverflowLeft then { s with left := .px 0 }
      else if topMiddleOverflowRight then
        { s with
          left := .px (windowSize.width - tooltipWidth - targetOffset.left) }
      else { s with left := .px tooltipLayerStyleLeftRight }
    { s with bottom := .px (targetOffset.height + 20) }
  | .topLeftAligned =>
    let tooltipLayerStyleLeft : ℚ := if hintMode then 0 else 15
    let s :=
      { s with
        left := (checkRight targetOffset windowSize tooltipLayerStyleLeft
          tooltipWidth).1 }
    { s with bottom := .px (targetOffset.height + 20) }
  | .top =>
    let tooltipLayerStyleLeft : ℚ := if hintMode then 0 else 15
    let s :=
      { s with
        left := (checkRight targetOffset windowSize tooltipLayerStyleLeft
          tooltipWidth).1 }
    { s with bottom := .px (targetOffset.height + 20) }
  | .right =>
    let s := { s with left := .px (targetOffset.width + 20) }
    if tooltipBottomOverflow then
      { s with
        top := .px (-(tooltipHeight - targetOffset.height - 20)) }
    else s
  | .left =>
    let s :=
      if !hintMode && showStepNumbers then { s with top := .px 15 } else s
    let s :=
      if tooltipBottomOverflow then
        { s with top := .px (-(tooltipHeight - targetOffset.height - 20)) }
      else s
    { s with right := .px (targetOffset.width + 20) }
  | .floating =>
    { s with
      left := .percent 50, top := .percent 50,
      marginLeft := .px (-(tooltipWidth / 2)),
      marginTop := .px (-(tooltipHeight / 2)) }
  | .bottomRightAligned =>
    let tooltipLayerStyleRight : ℚ := 0
    let s :=
      if targetOffset.left + targetOffset.width - tooltipWidth < 0 then
        { s with left := .px 0 }
      else
        { s with right := .px tooltipLayerStyleRight }
    { s with top := .px (targetOffset.height + 20) }
  | .bottomMiddleAligned =>
    let tooltipLayerStyleLeftRight :=
      targetOffset.width / 2 - tooltipWidth / 2
    let tooltipLayerStyleLeftRight :=
      if hintMode then tooltipLayerStyleLeftRight + 5
      else tooltipLayerStyleLeftRight
    let bottomMiddleOverflowLeft :=
      targetOffset.left + tooltipLayerStyleLeftRight < 0
    let bottomMiddleOverflowRight :=
      targetOffset.left + tooltipLayerStyleLeftRight + tooltipWidth >
        windowSize.width
    let s :=
      if bottomMiddleOverflowLeft then { s with left := .px 0 }
      else if bottomMiddleOverflowRight then
        { s with
          left := .px (windowSize.width - tooltipWidth - targetOffset.left) }
      else { s with left := .px tooltipLayerStyleLeftRight }
    { s with top := .px (targetOffset.height + 20) }
  | .bottomLeftAligned =>
    let bottomLeftStyleLeft : ℚ := if hintMode then 0 else 0
    let s :=
      { s with
        left := (checkRight targetOffset windowSize bottomLeftStyleLeft
          tooltipWidth).1 }
    { s with top := .px (targetOffset.height + 20) }
  | .bottom =>
    let s :=
      { s with
        left := (checkRight targetOffset windowSize 0 tooltipWidth).1 }
    { s with top := .px (targetOffset.height + 20) }

/-- Modelled from the spec: the tooltip is rendered inside a reference
layer that matches the anchor box (the positioning code of
`src/packages/tour/position.ts` is not among the provided sources), so
the computed offsets are anchor-relative (§4.3). A `left` offset `v`
puts the overlay's left edge at `anchor.left + v`; a `right` offset `r`
puts the overlay's right edge at `anchor.left + anchor.width - r`. This
returns the document-space left edge of the overlay, when determined by
the horizontal cells. -/
def overlayLeftEdge (targetOffset : TargetRect) (tooltipWidth : ℚ)
    (s : TooltipStyle) : Option ℚ :=
  match s.left, s.right with
  | .px v, _ => some (targetOffset.left + v)
  | .auto, .px r =>
    some (targetOffset.left + targetOffset.width - r - tooltipWidth)
  | _, _ => none

/-- Document-space right edge of the overlay: its left edge plus its
width. -/
def overlayRightEdge (targetOffset : TargetRect) (tooltipWidth : ℚ)
    (s : TooltipStyle) : Option ℚ :=
  (overlayLeftEdge targetOffset tooltipWidth s).map (· + tooltipWidth)

/-! ## Geometry resolver (`src/util/getOffset.ts`) -/

/-- A `DOMRect` as read from `getBoundingClientRect()`: viewport-relative
top/left and the measured size (`bottom`/`right` are the derived DOMRect
fields). -/
structure Rect where
  top : ℚ
  left : ℚ
  width : ℚ
  height : ℚ
deriving DecidableEq

/-- `DOMRect.bottom`. -/
def Rect.bottom (r : Rect) : ℚ := r.top + r.height

/-- `DOMRect.right`. -/
def Rect.rightEdge (r : Rect) : ℚ := r.left + r.width

/-- The CSS `position` computed value of the reference container, as
tested by `getOffset`. -/
inductive CssPosition where
  | static
  | relative
  | absolute
  | fixed
  | sticky
deriving DecidableEq

/-- One scrollable ancestor collected by `getScrollParents`, walked from
the element upward: its scroll offsets and whether it is the reference
container (`scrollParent === container`). -/
structure ScrollParent where
  scrollTop : ℚ
  scrollLeft : ℚ
  isContainer : Bool
deriving DecidableEq

/-- The page/document scroll values read by `getOffset`:
`window.pageXOffset`/`pageYOffset` and the `scrollTop`/`scrollLeft` of
`document.documentElement` and `document.body`. -/
structure PageScroll where
  pageXOffset : ℚ
  pageYOffset : ℚ
  docElScrollTop : ℚ
  docElScrollLeft : ℚ
  bodyScrollTop : ℚ
  bodyScrollLeft : ℚ
deriving DecidableEq

/-- JavaScript `a || b` on numbers: `b` when `a` is `0`, else `a`. -/
def jsOr (a b : ℚ) : ℚ := if a = 0 then b else a

/-- The element argument of `getOffset`: its bounding rectangle, whether
`isFixed` holds, and its scrollable ancestors in upward order. -/
structure ElementInfo where
  rect : Rect
  isFixed : Bool
  scrollParents : List ScrollParent
deriving DecidableEq

/-- The reference container of `getOffset` (the `relativeContainer`
argument, defaulted to `document.documentElement`): its rectangle,
whether its tag name is `body`, and its computed `position`. -/
structure ContainerInfo where
  rect : Rect
  isBody : Bool
  position : CssPosition
deriving DecidableEq

/-- The scroll-offset accumulation loop of `calculateRelativePosition`:
add each scrollable ancestor's scroll offsets, stopping (inclusive) at
the reference container. -/
def accumScroll : List ScrollParent → ℚ × ℚ → ℚ × ℚ
  | [], acc => acc
  | sp :: rest, (t, l) =>
    if sp.isContainer then (t + sp.scrollTop, l + sp.scrollLeft)
    else accumScroll rest (t + sp.scrollTop, l + sp.scrollLeft)

/-- `getOffset` of `src/util/getOffset.ts`: choose `top/left` by the
fixed / relative-or-sticky-container / normal-flow branch, then build the
`Offset` record, whose `absolute*` fields always use the raw viewport
rectangle plus `window.pageXOffset`/`pageYOffset`. -/
def getOffset (scroll : PageScroll) (element : ElementInfo)
    (container : ContainerInfo) : Offset :=
  let elementRect := element.rect
  let tl : ℚ × ℚ :=
    if element.isFixed then (elementRect.top, elementRect.left)
    else if !container.isBody &&
        (container.position = CssPosition.relative ||
          container.position = CssPosition.sticky) then
      accumScroll element.scrollParents
        (elementRect.top - container.rect.top,
          elementRect.left - container.rect.left)
    else
      (elementRect.top +
          jsOr scroll.pageYOffset
            (jsOr scroll.docElScrollTop scroll.bodyScrollTop),
        elementRect.left +
          jsOr scroll.pageXOffset
            (jsOr scroll.docElScrollLeft scroll.bodyScrollLeft))
  { top := tl.1
    left := tl.2
    width := elementRect.width
    height := elementRect.height
    bottom := tl.1 + elementRect.height
    right := tl.2 + elementRect.width
    absoluteTop := elementRect.top + scroll.pageYOffset
    absoluteLeft := elementRect.left + scroll.pageXOffset
    absoluteBottom := elementRect.bottom + scroll.pageYOffset
    absoluteRight := elementRect.rightEdge + scroll.pageXOffset }

/-! ## Step controller (`src/packages/tour/steps.ts`, provided as an
unnamed source file) -/

/-- Navigation direction of the tour. -/
inductive Direction where
  | forward
  | backward
deriving DecidableEq

/-- `ScrollTo` of the tour step type. -/
inductive ScrollTo where
  | off
  | element
  | tooltip
deriving DecidableEq

/-- The `TourStep` record (element handles are opaque naturals; a `none`
element is a step without an anchor). -/
structure TourStep where
  step : Nat
  title : String
  intro : String
  tooltipClass : Option String := none
  highlightClass : Option String := none
  element : Option Nat := none
  position : TooltipPosition
  scrollTo : ScrollTo
  disableInteraction : Option Bool := none
deriving DecidableEq

/-- Modelled from the spec: the mutable state owned by the `Tour` class
(not among the provided sources) that the step controller reads and
writes — the step list, `currentStepIndex` (absent when no step is
active, §3 TourState) and the navigation direction. -/
structure TourState where
  steps : List TourStep
  currentStep : Option Nat
  direction : Direction
deriving DecidableEq

/-- The caller-supplied hooks consulted by the step controller. The
`beforeChange` gating hook receives the target element, the target index
and the direction, and resolves to `some b` (an explicit boolean) or
`none` (JS `undefined`); `none` in the outer option means no hook is
registered, in which case the optional-chained call is skipped.
`hasComplete` and `hasExit` record whether a `complete` / `exit`
notification callback is registered. -/
structure TourConfig where
  beforeChange : Option (Option Nat → Nat → Direction → Option Bool)
  hasComplete : Bool
  hasExit : Bool

/-- Observable effects emitted while navigating. -/
inductive TourEvent where
  | beforeChangeCalled (element : Option Nat) (stepIndex : Nat)
      (direction : Direction)
  | completeCalled (stepIndex : Option Nat) (reason : String)
  | exitCalled
  | showElementCalled (step : TourStep)
deriving DecidableEq

/-- Modelled from the spec: `Tour.getStep(i)` returns the step at index
`i` of the step list, `undefined` past the end. -/
def getStep (st : TourState) (i : Nat) : Option TourStep :=
  st.steps.get? i

/-- Modelled from the spec: `Tour.incrementCurrentStep()` commits the
forward transition (§4.4 advance: `currentStepIndex = target`,
`direction = forward`), where the target is `0` when no step is active
and `current + 1` otherwise. -/
def incrementCurrentStep (st : TourState) : TourState :=
  { st with
    currentStep :=
      some (match st.currentStep with | none => 0 | some c => c + 1)
    direction := .forward }

/-- Modelled from the spec: `Tour.decrementCurrentStep()` commits the
backward transition (`currentStepIndex = current - 1`,
`direction = backward`). -/
def decrementCurrentStep (st : TourState) : TourState :=
  { st with
    currentStep :=
      match st.currentStep with | none => none | some c => some (c - 1)
    direction := .backward }

/-- Modelled from the spec: `Tour.isEnd()` holds when the current step
index has moved past the last step (the index is no longer a valid step
index). -/
def isEnd (st : TourState) : Bool :=
  match st.currentStep with
  | none => false
  | some c => st.steps.length ≤ c

/-- Modelled from the spec: `Tour.exit()` is Active→Idle unconditionally,
invoking the exit hook; a no-op from Idle (§4.4). -/
def exitTour (cfg : TourConfig) (st : TourState) :
    TourState × List TourEvent :=
  match st.currentStep with
  | none => (st, [])
  | some _ =>
    ({ st with currentStep := none },
      if cfg.hasExit then [.exitCalled] else [])

/-- The result of a hook invocation through optional chaining:
`undefined` when no hook is registered. -/
def callBeforeChange (cfg : TourConfig) (element : Option Nat)
    (stepIndex : Nat) (direction : Direction) : Option Bool :=
  match cfg.beforeChange with
  | none => none
  | some f => f element stepIndex direction

/-- The trace of the optional-chained `beforeChange` call: the hook runs
exactly when it is registered. -/
def beforeChangeEvents (cfg : TourConfig) (element : Option Nat)
    (stepIndex : Nat) (direction : Direction) : List TourEvent :=
  match cfg.beforeChange with
  | none => []
  | some _ => [.beforeChangeCalled element stepIndex direction]

/-- The target index computed at the top of `nextStep`:
`currentStep === undefined ? 0 : currentStep + 1`. -/
def nextTargetIndex (st : TourState) : Nat :=
  match st.currentStep with
  | none => 0
  | some c => c + 1

/-- `nextStep` of the tour steps module: compute the target index (`0`
when no step is active), bail out when no step exists there, await the
`beforeChange` gating hook, abort on an explicit `false`, and only then
commit the increment; when the committed index is past the end, emit
`complete("end")` and exit, otherwise show the target step. Returns the
JS boolean result together with the updated state and the emitted
events. -/
def nextStep (cfg : TourConfig) (st : TourState) :
    Bool × TourState × List TourEvent :=
  let nextStepIndex := nextTargetIndex st
  match getStep st nextStepIndex with
  | none => (false, st, [])
  | some step =>
    let hookEvents :=
      beforeChangeEvents cfg step.element nextStepIndex st.direction
    let continueStep :=
      callBeforeChange cfg step.element nextStepIndex st.direction
    if continueStep = some false then
      (false, st, hookEvents)
    else
      let st1 := incrementCurrentStep st
      if isEnd st1 then
        let completeEvents :=
          if cfg.hasComplete then
            [TourEvent.completeCalled st1.currentStep "end"]
          else []
        let exited := exitTour cfg st1
        (false, exited.1, hookEvents ++ completeEvents ++ exited.2)
      else
        (true, st1, hookEvents ++ [.showElementCalled step])

/-- `previousStep` of the tour steps module: invalid when no step is
active or the current index is `0`; otherwise gate on `beforeChange` for
`current - 1`, abort on an explicit `false`, and only then commit the
decrement and show the target step. -/
def previousStep (cfg : TourConfig) (st : TourState) :
    Bool × TourState × List TourEvent :=
  match st.currentStep with
  | none => (false, st, [])
  | some currentStep =>
    if currentStep = 0 then (false, st, [])
    else
      let prevStepIndex := currentStep - 1
      match getStep st prevStepIndex with
      | none => (false, st, [])
      | some step =>
        let hookEvents :=
          beforeChangeEvents cfg step.element prevStepIndex st.direction
        let continueStep :=
          callBeforeChange cfg step.element prevStepIndex st.direction
        if continueStep = some false then
          (false, st, hookEvents)
        else
          let st1 := decrementCurrentStep st
          (true, st1, hookEvents ++ [.showElementCalled step])

/-! ## Concrete fixtures used by witnesses and counterexamples -/

/-- The anchor of the repo's own `determineAutoPosition` unit test and of
spec Scenario A: `{left: 400, top: 200, width: 100, height: 50}` with
document-relative absolute fields equal to the viewport ones. -/
def offA : Offset :=
  ⟨100, 50, 400, 500, 200, 250, 200, 400, 500, 250⟩

/-- The anchor of spec Scenario C:
`{left: 950, top: 400, width: 100, height: 50}`. -/
def offC : Offset :=
  ⟨100, 50, 950, 1050, 400, 450, 400, 950, 1050, 450⟩

/-- An anchor close to the right viewport edge:
`{width: 100, height: 50, left: 900, top: 100}`. -/
def targetC2 : TargetRect := ⟨100, 50, 900, 100⟩

/-- The reset state of the six tooltip style cells. -/
def initialStyle : TooltipStyle := ⟨.auto, .auto, .auto, .auto, .zero, .zero⟩

/-- A concrete tour step anchored at the opaque element `n`. -/
def tourStepFix (n : Nat) : TourStep :=
  { step := n, title := "", intro := "step", element := some n,
    position := .bottom, scrollTo := .element }

/-- A tour configuration whose gating hook always allows the transition
and which registers `complete` and `exit` callbacks. -/
def cfgEnd : TourConfig :=
  { beforeChange := some (fun _ _ _ => some true), hasComplete := true,
    hasExit := true }

/-- A three-step tour sitting on its last step (index 2). -/
def stEnd : TourState :=
  { steps := [tourStepFix 1, tourStepFix 2, tourStepFix 3],
    currentStep := some 2, direction := .forward }

/-- A tour configuration whose gating hook always returns `false`. -/
def cfgGate : TourConfig :=
  { beforeChange := some (fun _ _ _ => some false), hasComplete := true,
    hasExit := true }

/-- A two-step tour at index 0. -/
def stGate : TourState :=
  { steps := [tourStepFix 1, tourStepFix 2], currentStep := some 0,
    direction := .forward }

/-- A tour configuration whose gating hook always returns `true`. -/
def cfgStart : TourConfig :=
  { beforeChange := some (fun _ _ _ => some true), hasComplete := false,
    hasExit := false }

/-- A two-step tour with no active step (`currentStepIndex` undefined). -/
def stStart : TourState :=
  { steps := [tourStepFix 1, tourStepFix 2], currentStep := none,
    direction := .forward }

/-! ## Helper lemmas -/

/-- On the top-alignment candidate list the removal cascade always
returns `top-left-aligned`: the left-aligned entry heads the list and no
condition ever removes it. -/
lemma alignmentFallback_top (half ww m off w : ℚ) :
    alignmentFallback half ww m off w
      [.topLeftAligned, .topMiddleAligned, .topRightAligned] =
      some .topLeftAligned := by
  unfold alignmentFallback
  split_ifs <;> rfl

/-- Bottom-list analogue of `alignmentFallback_top`. -/
lemma alignmentFallback_bottom (half ww m off w : ℚ) :
    alignmentFallback half ww m off w
      [.bottomLeftAligned, .bottomMiddleAligned, .bottomRightAligned] =
      some .bottomLeftAligned := by
  unfold alignmentFallback
  split_ifs <;> rfl

/-- Closed form of `determineAutoAlignment` on the top candidate list: a
requested alignment present in the list is returned unconditionally,
anything else yields `top-left-aligned`. -/
lemma determineAutoAlignment_top (s off w ww : ℚ)
    (req : TooltipPosition) :
    determineAutoAlignment s off w ww
      [.topLeftAligned, .topMiddleAligned, .topRightAligned] (some req) =
      some (if req ∈ ([.topLeftAligned, .topMiddleAligned,
          .topRightAligned] : List TooltipPosition) then req
        else .topLeftAligned) := by
  unfold determineAutoAlignment
  split_ifs with h
  · simp [h]
  · simp [h, alignmentFallback_top]

/-- Closed form of `determineAutoAlignment` on the bottom candidate
list. -/
lemma determineAutoAlignment_bottom (s off w ww : ℚ)
    (req : TooltipPosition) :
    determineAutoAlignment s off w ww
      [.bottomLeftAligned, .bottomMiddleAligned, .bottomRightAligned]
      (some req) =
      some (if req ∈ ([.bottomLeftAligned, .bottomMiddleAligned,
          .bottomRightAligned] : List TooltipPosition) then req
        else .bottomLeftAligned) := by
  unfold determineAutoAlignment
  split_ifs with h
  · simp [h]
  · simp [h, alignmentFallback_bottom]

/-- `baseOf` is idempotent. -/
lemma baseOf_idem (p : TooltipPosition) : baseOf (baseOf p) = baseOf p := by
  cases p <;> rfl

/-- Membership in a conditional `removeEntry` of a duplicate-free list. -/
lemma mem_condErase {l : List TooltipPosition} (h : l.Nodup) (c : Prop)
    [Decidable c] (x y : TooltipPosition) :
    (x ∈ if c then removeEntry l y else l) ↔ x ∈ l ∧ (c → x ≠ y) := by
  split_ifs with hc
  · rw [removeEntry, h.mem_erase_iff]
    tauto
  · tauto

/-- A conditional `removeEntry` preserves freedom from duplicates. -/
lemma nodup_condErase {l : List TooltipPosition} (h : l.Nodup) (c : Prop)
    [Decidable c] (y : TooltipPosition) :
    (if c then removeEntry l y else l).Nodup := by
  split_ifs with hc
  · exact h.erase y
  · exact h

/-- Membership characterization of the viewport filter: a position
survives `survivingPositions` exactly when it is in the precedence list
and its removal condition does not fire. -/
lemma mem_survivingPositions (prec : List TooltipPosition) (off : Offset)
    (w h : ℚ) (win : WindowSize) (hnd : prec.Nodup) (x : TooltipPosition) :
    x ∈ survivingPositions prec off w h win ↔
      x ∈ prec ∧
        (off.absoluteBottom + (h + 10) > win.height → x ≠ .bottom) ∧
        (off.absoluteTop - (h + 10) < 0 → x ≠ .top) ∧
        (off.absoluteRight + (w + 10) > win.width → x ≠ .right) ∧
        (off.absoluteLeft - (w + 10) < 0 → x ≠ .left) := by
  have hn1 := nodup_condErase hnd
    (off.absoluteBottom + (h + 10) > win.height) .bottom
  have hn2 := nodup_condErase hn1
    (off.absoluteTop - (h + 10) < 0) .top
  have hn3 := nodup_condErase hn2
    (off.absoluteRight + (w + 10) > win.width) .right
  simp only [survivingPositions]
  rw [mem_condErase hn3, mem_condErase hn2, mem_condErase hn1,
    mem_condErase hnd]
  tauto

/-- Resolving the alignment step of `determineAutoPosition` never changes
the base side of the chosen position. -/
lemma baseOf_resolveAlignment (s : ℚ) (offL w ww : ℚ)
    (c d : TooltipPosition) :
    baseOf
      (if c = TooltipPosition.top then
        (determineAutoAlignment s offL w ww
            [.topLeftAligned, .topMiddleAligned, .topRightAligned]
            (some d)).getD .topMiddleAligned
      else if c = TooltipPosition.bottom then
        (determineAutoAlignment s offL w ww
            [.bottomLeftAligned, .bottomMiddleAligned, .bottomRightAligned]
            (some d)).getD .bottomMiddleAligned
      else c) = baseOf c := by
  rcases hc : c
  case top =>
    rw [if_pos rfl, determineAutoAlignment_top]
    split_ifs with hd
    · simp only [List.mem_cons, List.not_mem_nil, or_false] at hd
      rcases hd with rfl | rfl | rfl <;> rfl
    · rfl
  case bottom =>
    rw [if_neg (by decide), if_pos rfl, determineAutoAlignment_bottom]
    split_ifs with hd
    · simp only [List.mem_cons, List.not_mem_nil, or_false] at hd
      rcases hd with rfl | rfl | rfl <;> rfl
    · rfl
  all_goals rfl

/-! ## Claim theorems -/

/-- C1: when the target step of `nextStep` (resp. `previousStep` with a
positive current index) exists and the registered `beforeChange` gating
hook resolves to `false`, the operation returns `false`, the tour state
(in particular `currentStepIndex`) is unchanged, and the only observable
effect is the gating-hook call itself — no `complete`, `exit` or
show-element work happens, and the state is never mutated before the
hook resolves non-false. -/
theorem beforeChange_false_aborts (cfg : TourConfig) (st : TourState)
    (f : Option Nat → Nat → Direction → Option Bool)
    (hcb : cfg.beforeChange = some f) :
    (∀ step : TourStep,
      getStep st (nextTargetIndex st) = some step →
      f step.element (nextTargetIndex st) st.direction = some false →
      nextStep cfg st =
        (false, st,
          [.beforeChangeCalled step.element (nextTargetIndex st)
              st.direction])) ∧
    (∀ (c : Nat) (step : TourStep),
      st.currentStep = some c → c ≠ 0 →
      getStep st (c - 1) = some step →
      f step.element (c - 1) st.direction = some false →
      previousStep cfg st =
        (false, st,
          [.beforeChangeCalled step.element (c - 1) st.direction])) := by
  constructor
  · intro step hstep hfalse
    simp only [nextStep, hstep, callBeforeChange, beforeChangeEvents,
      hcb, hfalse, if_pos]
  · intro c step hcur hc0 hstep hfalse
    simp only [previousStep, hcur, hstep, callBeforeChange,
      beforeChangeEvents, hcb, hfalse, if_pos]
    simp [hc0]

/-- C1 witness: a two-step tour at index 0 whose gating hook returns
`false` — `advance()` reports failure, the index stays 0, and only the
hook was called. -/
theorem beforeChange_false_aborts_witness :
    nextStep cfgGate stGate =
      (false, stGate,
        [.beforeChangeCalled (tourStepFix 2).element 1 .forward]) :=
  (beforeChange_false_aborts cfgGate stGate _ rfl).1 (tourStepFix 2)
    rfl rfl

/-- C2 counterexample: for the non-floating base position `right` no
viewport clamp runs at all — with the anchor at `left = 900` in a
1000px-wide viewport and a 200px-wide overlay, `alignTooltip` places the
overlay's right edge at 1220, beyond the viewport width, refuting the
claimed unconditional final clamp and the claimed guarantee
`right ≤ viewportWidth`. -/
theorem alignTooltip_right_escapes_viewport :
    overlayRightEdge targetC2 200
        (alignTooltip .right targetC2 ⟨1000, 800⟩ 200 100 false false false
          initialStyle) = some 1220 ∧
    (1220 : ℚ) > 1000 := by
  constructor
  · norm_num [alignTooltip, overlayRightEdge, overlayLeftEdge, targetC2,
      initialStyle]
  · norm_num

/-- C2 amended: the viewport clamp of `alignTooltip` is per-branch, not
unconditional. For the middle-aligned placements the horizontal clamp
does run last: a centered offset that would cross the left viewport edge
is replaced by the anchor-relative offset `0`, one that would cross the
right edge is replaced by `viewportWidth − overlayWidth − anchorLeft`,
which puts the overlay's absolute right edge exactly at the viewport
width (third conjunct); the plain `bottom` base clamps only the right
edge through `checkRight`. -/
theorem alignTooltip_branch_clamp (t : TargetRect) (win : WindowSize)
    (tw th : ℚ) (o sn hm : Bool) (s : TooltipStyle) :
    ((alignTooltip .bottomMiddleAligned t win tw th o sn hm s).left =
      if t.left + (t.width / 2 - tw / 2 + if hm then 5 else 0) < 0 then
        CssVal.px 0
      else if t.left + (t.width / 2 - tw / 2 + if hm then 5 else 0) + tw >
          win.width then
        CssVal.px (win.width - tw - t.left)
      else CssVal.px (t.width / 2 - tw / 2 + if hm then 5 else 0)) ∧
    ((alignTooltip .bottom t win tw th o sn hm s).left =
      if t.left + 0 + tw > win.width then
        CssVal.px (win.width - tw - t.left)
      else CssVal.px 0) ∧
    (t.left + (win.width - tw - t.left) + tw = win.width) := by
  refine ⟨?_, ?_, by ring⟩
  · cases hm <;>
      · simp only [alignTooltip, Bool.false_eq_true, if_true, if_false,
          add_zero]
        split_ifs <;> rfl
  · simp only [alignTooltip, checkRight]
    split_ifs <;> rfl

/-- C3: evaluating `nextStep` on a three-step tour at its last index
(2): the call returns `false` with the state unchanged and an empty
event trace — the gating hook is indeed not invoked (there is no step
3), but, contrary to the claim and to the dead `isEnd()` block of the
source, no `complete("end")` callback fires and the tour does not
transition to Idle, because `getStep(target) === undefined` returns
early before the completion block can be reached. -/
theorem advance_at_last_step_silent :
    nextStep cfgEnd stEnd = (false, stEnd, []) ∧
    stEnd.currentStep = some 2 ∧ stEnd.steps.length = 3 ∧
    cfgEnd.hasComplete = true ∧ cfgEnd.hasExit = true :=
  ⟨rfl, rfl, rfl, rfl, rfl⟩

/-- C4 counterexample: at the anchor of the repo's own unit test
(`{left: 400, top: 200, w: 100, h: 50}`, overlay 200×100, viewport
1000×800, precedence `[bottom, top]`, desired `bottom`), the middle
alignment fits by the code's own criteria (second and third conjuncts:
both removal conditions are clear of the 10px margin), yet the result is
`bottom-left-aligned`, not `bottom-middle-aligned` — refuting the
claimed middle-then-right-then-left tie-break. -/
theorem autoAlignment_not_middle_first :
    determineAutoPosition 1000 [.bottom, .top] offA 200 100 .bottom
        ⟨1000, 800⟩ = .bottomLeftAligned ∧
    (1000 : ℚ) - (400 + 210 / 2) ≥ 10 ∧
    (400 : ℚ) + 210 / 2 ≥ 10 ∧
    TooltipPosition.bottomLeftAligned ≠ .bottomMiddleAligned := by
  refine ⟨?_, by norm_num, by norm_num, by decide⟩
  norm_num [determineAutoPosition, survivingPositions, removeEntry,
    determineAutoAlignment, alignmentFallback, baseOf, offA]
  decide

/-- C4 amended: the alignment tie-break scans the candidate list in the
order left, middle, right, and the left-aligned entry is never removed,
so whenever the requested position is not itself one of the aligned
candidates the result is the left-aligned variant; a requested alignment
present in the list is honored unconditionally (without any geometric
fit check). The middle default applies only to an empty candidate list,
which the fallback cascade never produces. -/
theorem autoAlignment_left_first (s off w ww : ℚ) (req : TooltipPosition)
    (h1 : req ∉ ([.topLeftAligned, .topMiddleAligned,
        .topRightAligned] : List TooltipPosition))
    (h2 : req ∉ ([.bottomLeftAligned, .bottomMiddleAligned,
        .bottomRightAligned] : List TooltipPosition)) :
    determineAutoAlignment s off w ww
        [.topLeftAligned, .topMiddleAligned, .topRightAligned]
        (some req) = some .topLeftAligned ∧
    determineAutoAlignment s off w ww
        [.bottomLeftAligned, .bottomMiddleAligned, .bottomRightAligned]
        (some req) = some .bottomLeftAligned ∧
    (∀ r ∈ ([.topLeftAligned, .topMiddleAligned,
        .topRightAligned] : List TooltipPosition),
      determineAutoAlignment s off w ww
        [.topLeftAligned, .topMiddleAligned, .topRightAligned]
        (some r) = some r) := by
  refine ⟨?_, ?_, ?_⟩
  · rw [determineAutoAlignment_top, if_neg h1]
  · rw [determineAutoAlignment_bottom, if_neg h2]
  · intro r hr
    rw [determineAutoAlignment_top, if_pos hr]

/-- C4 witness: with the bare base `bottom` requested (not an aligned
candidate), the top-list alignment resolves to `top-left-aligned`. -/
theorem autoAlignment_left_first_witness :
    determineAutoAlignment 800 5 210 1000
        [.topLeftAligned, .topMiddleAligned, .topRightAligned]
        (some .bottom) = some .topLeftAligned :=
  (autoAlignment_left_first 800 5 210 1000 .bottom (by decide)
    (by decide)).1

/-- C5: for a duplicate-free precedence list, each base side survives
the viewport filter of `determineAutoPosition` exactly when it was a
candidate and its document-relative absolute edge, padded by the
overlay extent plus the 10px buffer, stays inside the viewport (e.g.
`bottom` survives iff `absoluteBottom + overlayHeight + 10 ≤
viewportHeight`); and when no candidate survives the decision is
`floating`. -/
theorem survivingPositions_viewport_filter (prec : List TooltipPosition)
    (off : Offset) (w h : ℚ) (win : WindowSize) (hnd : prec.Nodup) :
    (.bottom ∈ survivingPositions prec off w h win ↔
      .bottom ∈ prec ∧ off.absoluteBottom + (h + 10) ≤ win.height) ∧
    (.top ∈ survivingPositions prec off w h win ↔
      .top ∈ prec ∧ 0 ≤ off.absoluteTop - (h + 10)) ∧
    (.right ∈ survivingPositions prec off w h win ↔
      .right ∈ prec ∧ off.absoluteRight + (w + 10) ≤ win.width) ∧
    (.left ∈ survivingPositions prec off w h win ↔
      .left ∈ prec ∧ 0 ≤ off.absoluteLeft - (w + 10)) ∧
    (∀ (s : ℚ) (d : TooltipPosition),
      survivingPositions prec off w h win = [] →
        determineAutoPosition s prec off w h d win = .floating) := by
  refine ⟨?_, ?_, ?_, ?_, ?_⟩
  · simp [mem_survivingPositions prec off w h win hnd, not_lt]
  · simp [mem_survivingPositions prec off w h win hnd, not_lt]
  · simp [mem_survivingPositions prec off w h win hnd, not_lt]
  · simp [mem_survivingPositions prec off w h win hnd, not_lt]
  · intro s d hemp
    simp [determineAutoPosition, hemp]

/-- C5 witness: on the Scenario A anchor with a 200×100 overlay in a
1000×800 viewport, `bottom` survives the filter iff its absolute bottom
edge plus overlay height plus buffer fits, instantiated from the general
theorem with the duplicate-free precedence list
`[bottom, top, left, right]`. -/
theorem survivingPositions_viewport_filter_witness :
    TooltipPosition.bottom ∈
        survivingPositions [.bottom, .top, .left, .right] offA 200 100
          ⟨1000, 800⟩ ↔
      TooltipPosition.bottom ∈
          ([.bottom, .top, .left, .right] : List TooltipPosition) ∧
        offA.absoluteBottom + (100 + 10) ≤ (800 : ℚ) :=
  (survivingPositions_viewport_filter [.bottom, .top, .left, .right]
    offA 200 100 ⟨1000, 800⟩ (by decide)).1

/-- C6: whenever the viewport filter leaves at least one candidate, the
base side of the decided position is the desired position's base side if
it survived, and otherwise the base of the first surviving candidate in
precedence order — first-fit, never a later candidate. -/
theorem chosenBase_first_fit (s : ℚ) (prec : List TooltipPosition)
    (off : Offset) (w h : ℚ) (d : TooltipPosition) (win : WindowSize)
    (a : TooltipPosition) (l' : List TooltipPosition)
    (hs : survivingPositions prec off w h win = a :: l') :
    baseOf (determineAutoPosition s prec off w h d win) =
      if baseOf d ∈ survivingPositions prec off w h win then baseOf d
      else baseOf a := by
  simp only [determineAutoPosition, hs]
  by_cases hm : baseOf d ∈ a :: l'
  · simp only [if_pos hm, baseOf_resolveAlignment, baseOf_idem]
  · simp only [if_neg hm, baseOf_resolveAlignment]

/-- C6 witness: Scenario C — anchor `{left: 950, top: 400, w: 100,
h: 50}`, overlay 100×50, precedence `[right, left, top, bottom]`,
desired `right`; `right` is filtered out and the surviving list starts
with `left`, so the chosen base is `left`. -/
theorem chosenBase_first_fit_witness :
    baseOf (determineAutoPosition 1000 [.right, .left, .top, .bottom]
        offC 100 50 .right ⟨1000, 800⟩) =
      if baseOf .right ∈
          survivingPositions [.right, .left, .top, .bottom] offC 100 50
            ⟨1000, 800⟩ then baseOf .right
      else baseOf .left :=
  chosenBase_first_fit 1000 [.right, .left, .top, .bottom] offC 100 50
    .right ⟨1000, 800⟩ .left [.top, .bottom]
    (by norm_num [survivingPositions, removeEntry, offC])

/-- C7: the placement decision is a pure function of its parameter list.
The one ambient read of the source, `window.screen.width` inside
`determineAutoAlignment`, is modelled as the explicit `screenWidth`
argument, and two runs with identical parameters but arbitrary,
unrelated ambient screen widths return the identical result. -/
theorem determineAutoPosition_deterministic (s1 s2 : ℚ)
    (prec : List TooltipPosition) (off : Offset) (w h : ℚ)
    (d : TooltipPosition) (win : WindowSize) :
    determineAutoPosition s1 prec off w h d win =
      determineAutoPosition s2 prec off w h d win := by
  simp only [determineAutoPosition]
  split_ifs <;>
    simp [determineAutoAlignment_top, determineAutoAlignment_bottom]

/-- C8: every `Offset` built by `getOffset` satisfies
`bottom = top + height` and `right = left + width`, and its `absolute*`
fields equal the element's viewport bounding box shifted by the page
scroll offsets, whichever of the three branches (fixed,
relative/sticky container, normal flow) produced `top`/`left`. -/
theorem getOffset_invariants (scroll : PageScroll) (element : ElementInfo)
    (container : ContainerInfo) :
    (getOffset scroll element container).bottom =
        (getOffset scroll element container).top +
          (getOffset scroll element container).height ∧
    (getOffset scroll element container).right =
        (getOffset scroll element container).left +
          (getOffset scroll element container).width ∧
    (getOffset scroll element container).absoluteTop =
        element.rect.top + scroll.pageYOffset ∧
    (getOffset scroll element container).absoluteLeft =
        element.rect.left + scroll.pageXOffset ∧
    (getOffset scroll element container).absoluteBottom =
        (element.rect.top + element.rect.height) + scroll.pageYOffset ∧
    (getOffset scroll element container).absoluteRight =
        (element.rect.left + element.rect.width) + scroll.pageXOffset :=
  ⟨rfl, rfl, rfl, rfl, rfl, rfl⟩

/-- C9: `alignTooltip` is idempotent — it first resets all six style
cells and then writes them from its arguments alone, so running it a
second time with identical inputs reproduces the same output state. -/
theorem alignTooltip_idempotent (position : TooltipPosition)
    (targetOffset : TargetRect) (windowSize : WindowSize)
    (tooltipWidth tooltipHeight : ℚ)
    (tooltipBottomOverflow showStepNumbers hintMode : Bool)
    (s : TooltipStyle) :
    alignTooltip position targetOffset windowSize tooltipWidth
        tooltipHeight tooltipBottomOverflow showStepNumbers hintMode
        (alignTooltip position targetOffset windowSize tooltipWidth
          tooltipHeight tooltipBottomOverflow showStepNumbers hintMode
          s) =
      alignTooltip position targetOffset windowSize tooltipWidth
        tooltipHeight tooltipBottomOverflow showStepNumbers hintMode s := by
  cases position <;> rfl

/-- C10: invoking `nextStep` while no step is active computes target
index 0 — the gating hook is invoked for index 0 and, when it does not
veto, the call commits `currentStepIndex = 0`, direction forward, and
shows the first step, returning `true`. -/
theorem advance_from_undefined_starts_first (cfg : TourConfig)
    (st : TourState) (f : Option Nat → Nat → Direction → Option Bool)
    (step : TourStep)
    (hcur : st.currentStep = none) (hcb : cfg.beforeChange = some f)
    (hstep : getStep st 0 = some step)
    (hok : f step.element 0 st.direction ≠ some false) :
    nextStep cfg st =
      (true, { st with currentStep := some 0, direction := .forward },
        [.beforeChangeCalled step.element 0 st.direction,
          .showElementCalled step]) := by
  have hlen : st.steps.length ≠ 0 := by
    cases hsteps : st.steps with
    | nil => rw [getStep, hsteps] at hstep; simp at hstep
    | cons a l => simp [hsteps]
  simp only [nextStep, nextTargetIndex, hcur, hstep, callBeforeChange,
    beforeChangeEvents, hcb, incrementCurrentStep, isEnd]
  rw [if_neg hok]
  simp [hlen, List.cons_append]

/-- C10 witness: a two-step tour with `currentStepIndex` undefined and a
hook answering `true` — `advance()` gates on index 0, commits index 0
and shows the first step. -/
theorem advance_from_undefined_starts_first_witness :
    nextStep cfgStart stStart =
      (true, ⟨[tourStepFix 1, tourStepFix 2], some 0, .forward⟩,
        [.beforeChangeCalled (tourStepFix 1).element 0 .forward,
          .showElementCalled (tourStepFix 1)]) :=
  advance_from_undefined_starts_first cfgStart stStart _ (tourStepFix 1)
    rfl rfl rfl (by decide)

end IntroJs
